import Mathlib

/-!
Verification of the beacon-node core of this repository against its
natural-language specification. The definitions below are shallow embeddings
of the source files under `src/`; parts of the repository that only appear
through their callers (the `BeaconChain` coordinator internals, the
fork-choice trait implementation, `BeaconState` accessors and `ChainSpec`
helpers) are modelled from the specification and say so in their doc
comments.
-/

namespace Lighthouse

/-- 32-byte tree-hash identifier, modelled as a natural number. -/
abbrev Hash256 := Nat

/-- Slot number. -/
abbrev Slot := Nat

/-- Epoch number. -/
abbrev Epoch := Nat

/-- Dense validator index. -/
abbrev ValidatorIndex := Nat

/-- First value recorded under a key in an association list. -/
def assocLookup {α : Type} [DecidableEq α] {β : Type} (k : α) : List (α × β) → Option β
  | [] => none
  | (k2, b) :: rest => if k2 = k then some b else assocLookup k rest

/-- Fork-choice store fragment touched by `process_attestation`: the latest
(block_root, epoch) vote recorded for each validator. -/
structure ForkChoiceStore where
  latestMessages : List (ValidatorIndex × (Hash256 × Epoch))
deriving Repr, DecidableEq

/-- Entry-wise overwrite of the vote stored for one validator. -/
def overwriteVote (v : ValidatorIndex) (r : Hash256) (ep : Epoch) :
    ValidatorIndex × (Hash256 × Epoch) → ValidatorIndex × (Hash256 × Epoch)
  | (k, m) => if k = v then (v, (r, ep)) else (k, m)

/-- Modelled from the spec: fork-choice
`process_attestation(validator_index, target_block_root, target_epoch)`
(the LMD-GHOST implementation is not under `src/`). Per spec section 4.E it
updates `latest_messages[validator_index]` iff `target_epoch` strictly
exceeds the stored epoch, and records a first message for a validator with
no stored vote. -/
def ForkChoiceStore.processAttestation (s : ForkChoiceStore) (v : ValidatorIndex)
    (targetRoot : Hash256) (targetEpoch : Epoch) : ForkChoiceStore :=
  match assocLookup v s.latestMessages with
  | some (_, storedEpoch) =>
    if storedEpoch < targetEpoch then
      { s with latestMessages := s.latestMessages.map (overwriteVote v targetRoot targetEpoch) }
    else s
  | none => { s with latestMessages := (v, (targetRoot, targetEpoch)) :: s.latestMessages }

/-- Modelled from the spec: the variants of `AttestationValidationError`
(the state_processing error definitions are not under `src/`); the spec
lists bad committee, bad signature, slot out of range, wrong target root
and wrong justified epoch; the unknown-block case is surfaced by the
coordinator as `NoStateForAttestation` instead. -/
inductive AttestationValidationError where
  | badCommittee
  | badSignature
  | slotOutOfRange
  | wrongTargetRoot
  | wrongJustifiedEpoch
deriving Repr, DecidableEq

/-- Error enum of the beacon-chain coordinator, embedded from
`src/beacon_node/beacon_chain/src/errors.rs`. Payloads of foreign error
types are modelled as numeric codes. -/
inductive BeaconChainError where
  | insufficientValidators
  | badRecentBlockRoots
  | unableToReadSlot
  | revertedFinalizedEpoch (previousEpoch newEpoch : Epoch)
  | unableToFindTargetRoot (slot : Slot)
  | beaconStateError (e : Nat)
  | dbInconsistent (s : String)
  | dbError (e : Nat)
  | forkChoiceError (e : Nat)
  | missingBeaconBlock (root : Hash256)
  | missingBeaconState (root : Hash256)
  | slotProcessingError (e : Nat)
  | noStateForAttestation (beaconBlockRoot : Hash256)
  | attestationValidationError (e : AttestationValidationError)
deriving Repr, DecidableEq

/-- Attestation data: an LMD-GHOST vote plus FFG source and target. -/
structure AttestationData where
  beaconBlockRoot : Hash256
  sourceEpoch : Epoch
  targetEpoch : Epoch
  targetRoot : Hash256
  slot : Slot
  shard : Nat
deriving Repr, DecidableEq

/-- Attestation as the coordinator ingests it (signature handled separately
by the signature-set layer). -/
structure Attestation where
  aggregationBits : List Bool
  custodyBits : List Bool
  data : AttestationData
deriving Repr, DecidableEq

/-- Snapshot of the consensus state associated with one target block, with
the fields attestation validation reads. -/
structure ChainState where
  slot : Slot
  blockRoot : Hash256
  justifiedEpoch : Epoch
  committee : List ValidatorIndex
deriving Repr, DecidableEq

/-- Modelled from the spec: validation of an attestation against the state
of its target block (the coordinator's validation source is not under
`src/`). It rejects a slot outside the state's slot, a wrong target root, a
wrong justified epoch or a committee mismatch, and on success yields the
attesting validator indices. -/
def validateAttestation (st : ChainState) (att : Attestation) :
    Except AttestationValidationError (List ValidatorIndex) :=
  if att.data.slot ≠ st.slot then .error .slotOutOfRange
  else if att.data.targetRoot ≠ st.blockRoot then .error .wrongTargetRoot
  else if att.data.sourceEpoch ≠ st.justifiedEpoch then .error .wrongJustifiedEpoch
  else if att.aggregationBits.length ≠ st.committee.length then .error .badCommittee
  else .ok ((st.committee.zip att.aggregationBits).filterMap
    fun p => if p.2 then some p.1 else none)

/-- Coordinator state owned by `BeaconChain` that attestation ingestion can
touch: states known by target-block root, the fork-choice store, the
operation pool and the persisted key-value records. -/
structure BeaconChainModel where
  knownStates : List (Hash256 × ChainState)
  forkChoice : ForkChoiceStore
  opPool : List Attestation
  persistedStates : List (Hash256 × ChainState)
deriving Repr, DecidableEq

/-- Modelled from the spec: `BeaconChain::process_attestation` (the
coordinator source is not under `src/`). It looks up the state for the
attestation's `beacon_block_root`; with no such state it returns
`NoStateForAttestation` carrying that root; otherwise it validates against
that state and, on success, inserts into the op pool and forwards one
fork-choice vote per attesting index. -/
def BeaconChainModel.processAttestation (c : BeaconChainModel) (att : Attestation) :
    Except BeaconChainError Unit × BeaconChainModel :=
  match assocLookup att.data.beaconBlockRoot c.knownStates with
  | none => (.error (.noStateForAttestation att.data.beaconBlockRoot), c)
  | some st =>
    match validateAttestation st att with
    | .error e => (.error (.attestationValidationError e), c)
    | .ok indices =>
      (.ok (), { c with
        opPool := att :: c.opPool,
        forkChoice := indices.foldl
          (fun fc v => fc.processAttestation v att.data.beaconBlockRoot att.data.targetEpoch)
          c.forkChoice })

/-- BLS public key, idealized as the bare key number; the BLS library
(`milagro_bls`) is external to the repository. -/
structure PublicKey where
  key : Nat
deriving Repr, DecidableEq

/-- Public key corresponding to a secret key in the idealized BLS model. -/
def pubkeyOf (sk : Nat) : PublicKey := ⟨sk⟩

/-- BLS signature, idealized: a produced signature records the message, the
domain and the signing key; the BLS library is external to the repository. -/
inductive Signature where
  | empty
  | produced (message : Hash256) (domain : Nat) (sk : Nat)
deriving Repr, DecidableEq

/-- Encoding of a signature as a natural number, used by the hash model. -/
def Signature.encode : Signature → Nat
  | .empty => 0
  | .produced m d k => Nat.pair m (Nat.pair d k) + 1

/-- Validator-registry entry, with the field the signature sets read. -/
structure Validator where
  pubkey : PublicKey
deriving Repr, DecidableEq

/-- Fork descriptor: versions on each side of a fork epoch. -/
structure Fork where
  previousVersion : Nat
  currentVersion : Nat
  epoch : Epoch
deriving Repr, DecidableEq

/-- Signature-domain kinds used by the signature-set constructors. -/
inductive Domain where
  | beaconProposer
  | randao
  | attestation
  | deposit
  | voluntaryExit
  | transfer
deriving Repr, DecidableEq

/-- Numeric tag of a domain kind. -/
def Domain.index : Domain → Nat
  | .beaconProposer => 0
  | .randao => 1
  | .attestation => 2
  | .deposit => 3
  | .voluntaryExit => 4
  | .transfer => 5

/-- Chain-constant bundle; the model keeps a seed that feeds the domain
computation. -/
structure ChainSpec where
  domainSeed : Nat
deriving Repr, DecidableEq

/-- Modelled from the spec: `ChainSpec::get_domain(epoch, domain, fork)`
(the ChainSpec source is not under `src/`): the signing domain is a
deterministic function of the domain kind and of the fork version in force
at the given epoch. -/
def ChainSpec.get_domain (spec : ChainSpec) (epoch : Epoch) (d : Domain) (f : Fork) : Nat :=
  Nat.pair spec.domainSeed
    (Nat.pair d.index (if epoch < f.epoch then f.previousVersion else f.currentVersion))

/-- Epoch containing a slot, as `Slot::epoch(slots_per_epoch)` computes it. -/
def slotEpoch (slot : Slot) (slotsPerEpoch : Nat) : Epoch := slot / slotsPerEpoch

/-- Block body fragment read by the signature sets. -/
structure BeaconBlockBody where
  randao_reveal : Signature
deriving Repr, DecidableEq

/-- Beacon block as the signature-set constructors and the harness see it. -/
structure BeaconBlock where
  slot : Slot
  parent_root : Hash256
  state_root : Hash256
  body : BeaconBlockBody
  signature : Signature
deriving Repr, DecidableEq

/-- Signed root of a block: deterministic tree hash of every field except
`signature`; the tree_hash library is external to the repository and is
modelled as an injective encoding. -/
def BeaconBlock.signed_root (b : BeaconBlock) : Hash256 :=
  Nat.pair b.slot (Nat.pair b.parent_root (Nat.pair b.state_root b.body.randao_reveal.encode))

/-- Tree-hash root of a bare epoch number, tagged apart from block roots. -/
def epochTreeHashRoot (e : Epoch) : Hash256 := Nat.pair 1 e

/-- Beacon state as the signature-set constructors read it: the validator
registry, the fork and the slot (for `current_epoch`). -/
structure BeaconState where
  slot : Slot
  validators : List Validator
  fork : Fork
deriving Repr, DecidableEq

/-- Current epoch of a state, per its slot. -/
def BeaconState.current_epoch (st : BeaconState) (slotsPerEpoch : Nat) : Epoch :=
  slotEpoch st.slot slotsPerEpoch

/-- Modelled from the spec:
`BeaconState::get_beacon_proposer_index(slot, RelativeEpoch::Current, spec)`
(the BeaconState source is not under `src/`). It determines the proposer of
a slot as an index into the state's validator registry, or fails with a
`BeaconStateError` (here: when the registry is empty and yields no
proposer). The error payload is a numeric code. -/
def BeaconState.get_beacon_proposer_index (st : BeaconState) (slot : Slot)
    (_spec : ChainSpec) : Except Nat Nat :=
  if st.validators.length = 0 then .error 0
  else .ok (slot % st.validators.length)

/-- Error enum of the signature-set constructors, embedded from
`signature_sets.rs` lines 29-43. -/
inductive SsError where
  | signatureInvalid
  | beaconStateError (e : Nat)
  | attestationValidationError (e : AttestationValidationError)
  | validatorUnknown (idx : Nat)
  | mismatchedPublicKeyLen (pubkeyLen otherLen : Nat)
deriving Repr, DecidableEq

/-- Batch-verifiable signature set as `SignatureSet::new` assembles it. -/
structure SignatureSet where
  signature : Signature
  pubkeys : List PublicKey
  messages : List Hash256
  domain : Nat
deriving Repr, DecidableEq

/-- Embedding of `block_proposal_signature_set` (`signature_sets.rs` lines
59-81). The outer `Option` models the Rust runtime: `none` stands for a
panic, which can arise only from the unchecked registry indexing
`state.validators[...]` performed on the proposer index. -/
def block_proposal_signature_set (slotsPerEpoch : Nat) (st : BeaconState)
    (blk : BeaconBlock) (spec : ChainSpec) : Option (Except SsError SignatureSet) :=
  match st.get_beacon_proposer_index blk.slot spec with
  | .error e => some (.error (.beaconStateError e))
  | .ok i =>
    match st.validators[i]? with
    | none => none
    | some block_proposer =>
      some (.ok
        { signature := blk.signature
          pubkeys := [block_proposer.pubkey]
          messages := [blk.signed_root]
          domain := spec.get_domain (slotEpoch blk.slot slotsPerEpoch) .beaconProposer st.fork })

/-- Embedding of `randao_signature_set` (`signature_sets.rs` lines 84-106),
with the same panic channel for the unchecked registry indexing. -/
def randao_signature_set (slotsPerEpoch : Nat) (st : BeaconState)
    (blk : BeaconBlock) (spec : ChainSpec) : Option (Except SsError SignatureSet) :=
  match st.get_beacon_proposer_index blk.slot spec with
  | .error e => some (.error (.beaconStateError e))
  | .ok i =>
    match st.validators[i]? with
    | none => none
    | some block_proposer =>
      some (.ok
        { signature := blk.body.randao_reveal
          pubkeys := [block_proposer.pubkey]
          messages := [epochTreeHashRoot (st.current_epoch slotsPerEpoch)]
          domain := spec.get_domain (slotEpoch blk.slot slotsPerEpoch) .randao st.fork })

/-- Block header carried inside a proposer slashing. -/
structure BeaconBlockHeader where
  slot : Slot
  parent_root : Hash256
  state_root : Hash256
  body_root : Hash256
  signature : Signature
deriving Repr, DecidableEq

/-- Signed root of a block header (all fields except `signature`). -/
def BeaconBlockHeader.signed_root (h : BeaconBlockHeader) : Hash256 :=
  Nat.pair 2 (Nat.pair h.slot (Nat.pair h.parent_root (Nat.pair h.state_root h.body_root)))

/-- Proposer slashing: two conflicting headers by one proposer. -/
structure ProposerSlashing where
  proposer_index : Nat
  header_1 : BeaconBlockHeader
  header_2 : BeaconBlockHeader
deriving Repr, DecidableEq

/-- Embedding of the private `block_header_signature_set`
(`signature_sets.rs` lines 126-146); it performs no registry access and
every path returns `Ok`. -/
def block_header_signature_set (slotsPerEpoch : Nat) (st : BeaconState)
    (header : BeaconBlockHeader) (pubkey : PublicKey) (spec : ChainSpec) :
    Except SsError SignatureSet :=
  .ok
    { signature := header.signature
      pubkeys := [pubkey]
      messages := [header.signed_root]
      domain := spec.get_domain (slotEpoch header.slot slotsPerEpoch) .beaconProposer st.fork }

/-- Embedding of `proposer_slashing_signature_set` (`signature_sets.rs`
lines 109-123). The registry access goes through the checked `.get(..)`
with `ok_or_else`, so the panic channel is never used. -/
def proposer_slashing_signature_set (slotsPerEpoch : Nat) (st : BeaconState)
    (ps : ProposerSlashing) (spec : ChainSpec) :
    Option (Except SsError (SignatureSet × SignatureSet)) :=
  match st.validators[ps.proposer_index]? with
  | none => some (.error (.validatorUnknown ps.proposer_index))
  | some proposer =>
    some (do
      let s1 ← block_header_signature_set slotsPerEpoch st ps.header_1 proposer.pubkey spec
      let s2 ← block_header_signature_set slotsPerEpoch st ps.header_2 proposer.pubkey spec
      .ok (s1, s2))

/-- Voluntary exit operation. -/
structure VoluntaryExit where
  epoch : Epoch
  validator_index : Nat
  signature : Signature
deriving Repr, DecidableEq

/-- Signed root of a voluntary exit (all fields except `signature`). -/
def VoluntaryExit.signed_root (e : VoluntaryExit) : Hash256 :=
  Nat.pair 3 (Nat.pair e.epoch e.validator_index)

/-- Embedding of `exit_signature_set` (`signature_sets.rs` lines 252-272).
The registry access goes through the checked `.get(..)` with `ok_or_else`,
so the panic channel is never used. -/
def exit_signature_set (st : BeaconState) (exit : VoluntaryExit) (spec : ChainSpec) :
    Option (Except SsError SignatureSet) :=
  match st.validators[exit.validator_index]? with
  | none => some (.error (.validatorUnknown exit.validator_index))
  | some validator =>
    some (.ok
      { signature := exit.signature
        pubkeys := [validator.pubkey]
        messages := [exit.signed_root]
        domain := spec.get_domain exit.epoch .voluntaryExit st.fork })

/-- BLS aggregate public key, idealized as the list of added key points;
`new` is the empty (identity) aggregate. The BLS library is external to the
repository. -/
structure AggregatePublicKey where
  points : List PublicKey
deriving Repr, DecidableEq

/-- Embedding of `AggregatePublicKey::new`
(`bls/src/aggregate_public_key.rs` lines 12-14): the empty aggregate. -/
def AggregatePublicKey.new : AggregatePublicKey := ⟨[]⟩

/-- Embedding of `AggregatePublicKey::add_without_affine`: point addition,
idealized as accumulation. -/
def AggregatePublicKey.add_without_affine (a : AggregatePublicKey) (pk : PublicKey) :
    AggregatePublicKey := ⟨a.points ++ [pk]⟩

/-- Embedding of `AggregatePublicKey::affine`: affine normalization of the
accumulated point, a representation change with no effect in the idealized
model. -/
def AggregatePublicKey.affine (a : AggregatePublicKey) : AggregatePublicKey := a

/-- Embedding of `create_aggregate_pubkey` (`signature_sets.rs` lines
296-321): `try_fold` of `add_without_affine` over the validator indices
starting from `AggregatePublicKey::new()`, failing on the first index with
no validator; the result is then normalized with `affine`. An empty index
list therefore yields `Ok` of the empty (identity) aggregate. -/
def create_aggregate_pubkey (st : BeaconState) (validator_indices : List Nat) :
    Except SsError AggregatePublicKey :=
  let step : AggregatePublicKey → Nat → Except SsError AggregatePublicKey :=
    fun aggregate_pubkey validator_idx =>
      match st.validators[validator_idx]? with
      | none => Except.error (.validatorUnknown validator_idx)
      | some validator => Except.ok (aggregate_pubkey.add_without_affine validator.pubkey)
  (validator_indices.foldlM step AggregatePublicKey.new).map AggregatePublicKey.affine

/-- Indexed attestation with its two custody-bit index lists. -/
structure IndexedAttestation where
  custody_bit_0_indices : List Nat
  custody_bit_1_indices : List Nat
  data : AttestationData
  signature : Signature
deriving Repr, DecidableEq

/-- Embedding of `indexed_attestation_pubkeys` (`signature_sets.rs` lines
150-158): one aggregate per custody-bit index list. -/
def indexed_attestation_pubkeys (st : BeaconState) (ia : IndexedAttestation) :
    Except SsError (AggregatePublicKey × AggregatePublicKey) := do
  let k0 ← create_aggregate_pubkey st ia.custody_bit_0_indices
  let k1 ← create_aggregate_pubkey st ia.custody_bit_1_indices
  .ok (k0, k1)

/-- Signing step of `BeaconChainHarness::build_block` (`test_utils.rs`
lines 267-272): the harness replaces the produced block's signature with a
signature over the block's signed root under the BeaconProposer domain of
the block's epoch. -/
def harness_sign_block (slotsPerEpoch : Nat) (spec : ChainSpec) (fork : Fork)
    (sk : Nat) (blk : BeaconBlock) : BeaconBlock :=
  { blk with signature :=
      (Signature.produced blk.signed_root
        (spec.get_domain (slotEpoch blk.slot slotsPerEpoch) .beaconProposer fork) sk) }

/-- Validity of a single-message signature set in the idealized BLS model:
the signature must be over the set's message, under the set's domain, by
the secret key matching the set's public key. -/
def SignatureSet.is_valid : SignatureSet → Bool
  | ⟨Signature.produced m d k, [pk], [msg], domain⟩ =>
    m == msg && d == domain && pk == pubkeyOf k
  | _ => false

/-- HTTP method, as far as the REST router distinguishes methods. -/
inductive Method where
  | GET
  | POST
  | otherMethod
deriving Repr, DecidableEq

/-- Error enum of the REST API, embedded from `rest_api/src/lib.rs` lines
23-31. -/
inductive ApiError where
  | methodNotAllowed (desc : String)
  | serverError (desc : String)
  | notImplemented (desc : String)
  | invalidQueryParams (desc : String)
  | notFound (desc : String)
  | imATeapot (desc : String)
deriving Repr, DecidableEq

/-- Status-code mapping of the REST errors, embedded from the
`Into<Response>` impl in `rest_api/src/lib.rs` lines 35-50. -/
def ApiError.status_code : ApiError → Nat
  | .methodNotAllowed _ => 405
  | .serverError _ => 500
  | .notImplemented _ => 501
  | .invalidQueryParams _ => 400
  | .notFound _ => 404
  | .imATeapot _ => 418

/-- Routing outcome of the REST server: one of the five handlers, or the
fallback error branch for an unmatched method-and-path pair. -/
inductive Route where
  | beaconState
  | beaconStateRoot
  | metricsRoute
  | nodeVersion
  | nodeGenesisTime
  | fallback (e : ApiError)
deriving Repr, DecidableEq

/-- Embedding of the route match in `start_server` (`rest_api/src/lib.rs`
lines 115-122): five method-and-path pairs reach a handler; every other
pair is mapped to `ApiError::MethodNotAllowed(path)`. -/
def route_request (m : Method) (path : String) : Route :=
  match m, path with
  | .GET, "/beacon/state" => .beaconState
  | .GET, "/beacon/state_root" => .beaconStateRoot
  | .GET, "/metrics" => .metricsRoute
  | .GET, "/node/version" => .nodeVersion
  | .GET, "/node/genesis_time" => .nodeGenesisTime
  | _, _ => .fallback (.methodNotAllowed path)

/-- Method-and-path pairs the router matches to a handler. -/
def routed_pairs : List (Method × String) :=
  [(.GET, "/beacon/state"), (.GET, "/beacon/state_root"), (.GET, "/metrics"),
   (.GET, "/node/version"), (.GET, "/node/genesis_time")]

/-- Status code of the response when routing hits the fallback branch;
routed handlers choose their own status, so this is `none` for them. -/
def fallback_response_status : Route → Option Nat
  | .fallback e => some e.status_code
  | _ => none

/-- Status codes of the gRPC replies the attestation service uses. -/
inductive RpcStatusCode where
  | ok
  | outOfRange
  | invalidArgument
  | unknown
deriving Repr, DecidableEq

/-- SSZ encoding of an `AttestationData` for the RPC reply; the ssz library
is external to the repository and is modelled as an injective encoding. -/
def attestationDataSsz (d : AttestationData) : Nat :=
  Nat.pair 4 (Nat.pair d.beaconBlockRoot (Nat.pair d.sourceEpoch
    (Nat.pair d.targetEpoch (Nat.pair d.targetRoot (Nat.pair d.slot d.shard)))))

/-- Reply of the `ProduceAttestationData` RPC: a failed status with a
message, or a success carrying the SSZ-encoded attestation data. -/
inductive ProduceAttestationDataReply where
  | fail (status : RpcStatusCode) (msg : String)
  | success (ssz : Nat)
deriving Repr, DecidableEq

/-- Embedding of `produce_attestation_data` (`rpc/src/attestation.rs` lines
41-95). The requested slot is compared against the slot of the chain's
speculative state; the outcome of the external call
`chain.produce_attestation_data(shard)` is passed in as `chain_result`. -/
def produce_attestation_data (slot_requested : Nat) (state_slot : Nat)
    (chain_result : Except BeaconChainError AttestationData) :
    ProduceAttestationDataReply :=
  if slot_requested > state_slot then
    .fail .outOfRange "AttestationData request for a slot that is in the future."
  else if slot_requested < state_slot then
    .fail .invalidArgument "AttestationData request for a slot that is in the past."
  else
    match chain_result with
    | .error _ => .fail .unknown "Could not produce an attestation."
    | .ok v => .success (attestationDataSsz v)

/-- Rendering of an attestation-validation error by the debug formatter,
modelled by constructor name. -/
def AttestationValidationError.render : AttestationValidationError → String
  | .badCommittee => "BadCommittee"
  | .badSignature => "BadSignature"
  | .slotOutOfRange => "SlotOutOfRange"
  | .wrongTargetRoot => "WrongTargetRoot"
  | .wrongJustifiedEpoch => "WrongJustifiedEpoch"

/-- Rendering of a coordinator error by the debug formatter, modelled by
constructor name. -/
def BeaconChainError.render : BeaconChainError → String
  | .insufficientValidators => "InsufficientValidators"
  | .badRecentBlockRoots => "BadRecentBlockRoots"
  | .unableToReadSlot => "UnableToReadSlot"
  | .revertedFinalizedEpoch _ _ => "RevertedFinalizedEpoch"
  | .unableToFindTargetRoot _ => "UnableToFindTargetRoot"
  | .beaconStateError _ => "BeaconStateError"
  | .dbInconsistent _ => "DBInconsistent"
  | .dbError _ => "DBError"
  | .forkChoiceError _ => "ForkChoiceError"
  | .missingBeaconBlock _ => "MissingBeaconBlock"
  | .missingBeaconState _ => "MissingBeaconState"
  | .slotProcessingError _ => "SlotProcessingError"
  | .noStateForAttestation _ => "NoStateForAttestation"
  | .attestationValidationError e => "AttestationValidationError " ++ e.render

/-- Response body of the `PublishAttestation` RPC. -/
structure PublishAttestationResponse where
  success : Bool
  msg : Option String
deriving Repr, DecidableEq

/-- Observable outcome of one `publish_attestation` call: the response sent
back and whether a `NetworkMessage::Publish` on the beacon-attestation
topic was handed to the network channel. -/
structure PublishOutcome where
  response : PublishAttestationResponse
  publishedToGossip : Bool
deriving Repr, DecidableEq

/-- Failure message `publish_attestation` formats for each coordinator
error kind. -/
def publish_failure_message : BeaconChainError → String
  | .attestationValidationError e => "InvalidAttestation: " ++ e.render
  | e => "There was a beacon chain error: " ++ e.render

/-- Embedding of the dispatch in `publish_attestation`
(`rpc/src/attestation.rs` lines 137-207) on the result of
`chain.process_attestation`: on `Ok` the attestation is published on the
beacon-attestation gossip topic and the response reports success; on every
error the response reports `success = false` with a message naming the
failure kind, and nothing is published. -/
def publish_attestation_dispatch (process_result : Except BeaconChainError Unit) :
    PublishOutcome :=
  match process_result with
  | .ok _ => { response := { success := true, msg := none }, publishedToGossip := true }
  | .error e =>
    { response := { success := false, msg := some (publish_failure_message e) }
      publishedToGossip := false }

/-- Results of the fallible external calls the validator-client `main`
makes, in program order: filesystem, config parsing and the service are
outside the embedded fragment and are supplied as flags. -/
structure VcEnv where
  datadirGiven : Bool
  homeDirFound : Bool
  createDataDirOk : Bool
  readClientConfigOk : Bool
  clientConfigOnDisk : Bool
  writeClientConfigOk : Bool
  applyCliArgsClientOk : Bool
  readEth2ConfigOk : Bool
  eth2ConfigOnDisk : Bool
  writeEth2ConfigOk : Bool
  applyCliArgsEth2Ok : Bool
  specConstantsTitle : String
  serviceOk : Bool
deriving Repr, DecidableEq

/-- Exit behaviour of the validator-client process: the exit status of
`main` and whether the validator service was started. -/
structure VcExit where
  exitCode : Nat
  startedService : Bool
deriving Repr, DecidableEq

/-- Embedding of the validator-client `main`
(`validator_client/src/main.rs`). Every failure branch logs with `crit!`
and then returns from `main`, so the process terminates normally with exit
status 0 on each of them; no path of `main` produces a nonzero exit
status. -/
def validator_client_main (env : VcEnv) : VcExit :=
  if !env.datadirGiven && !env.homeDirFound then { exitCode := 0, startedService := false }
  else if !env.createDataDirOk then { exitCode := 0, startedService := false }
  else if !env.readClientConfigOk then { exitCode := 0, startedService := false }
  else if !env.clientConfigOnDisk && !env.writeClientConfigOk then
    { exitCode := 0, startedService := false }
  else if !env.applyCliArgsClientOk then { exitCode := 0, startedService := false }
  else if !env.readEth2ConfigOk then { exitCode := 0, startedService := false }
  else if !env.eth2ConfigOnDisk && !env.writeEth2ConfigOk then
    { exitCode := 0, startedService := false }
  else if !env.applyCliArgsEth2Ok then { exitCode := 0, startedService := false }
  else
    match env.specConstantsTitle with
    | "mainnet" => { exitCode := 0, startedService := true }
    | "minimal" => { exitCode := 0, startedService := true }
    | "interop" => { exitCode := 0, startedService := true }
    | _ => { exitCode := 0, startedService := false }

/-- Configuration or spec-mismatch error conditions of the validator-client
`main`, one disjunct per failure branch: no data directory (neither given
nor derivable from a home directory), failure to create it, failure to load
or to write the client config, failure to apply client CLI arguments,
failure to read or to write the Eth2Config, failure to apply Eth2Config CLI
arguments, or an unknown spec-constants title. -/
def VcEnv.hasConfigError (env : VcEnv) : Bool :=
  (!env.datadirGiven && !env.homeDirFound) ||
  !env.createDataDirOk ||
  !env.readClientConfigOk ||
  (!env.clientConfigOnDisk && !env.writeClientConfigOk) ||
  !env.applyCliArgsClientOk ||
  !env.readEth2ConfigOk ||
  (!env.eth2ConfigOnDisk && !env.writeEth2ConfigOk) ||
  !env.applyCliArgsEth2Ok ||
  (!(env.specConstantsTitle == "mainnet") && !(env.specConstantsTitle == "minimal") &&
    !(env.specConstantsTitle == "interop"))

/-- Validator-client environment in which the data-directory creation
fails and everything else would succeed. -/
def envBadDataDir : VcEnv :=
  { datadirGiven := true, homeDirFound := true, createDataDirOk := false,
    readClientConfigOk := true, clientConfigOnDisk := true, writeClientConfigOk := true,
    applyCliArgsClientOk := true, readEth2ConfigOk := true, eth2ConfigOnDisk := true,
    writeEth2ConfigOk := true, applyCliArgsEth2Ok := true, specConstantsTitle := "minimal",
    serviceOk := true }

/-- Concrete attestation data used by the closed witnesses. -/
def sampleData : AttestationData :=
  { beaconBlockRoot := 42, sourceEpoch := 0, targetEpoch := 1, targetRoot := 42,
    slot := 3, shard := 0 }

/-- Concrete attestation used by the closed witnesses. -/
def sampleAttestation : Attestation :=
  { aggregationBits := [true], custodyBits := [false], data := sampleData }

/-- Coordinator with no known states, no votes, no pooled operations and no
persisted records. -/
def emptyChain : BeaconChainModel :=
  { knownStates := [], forkChoice := ⟨[]⟩, opPool := [], persistedStates := [] }

/-- Concrete one-validator beacon state used by the closed witnesses. -/
def sampleState : BeaconState :=
  { slot := 0, validators := [⟨pubkeyOf 7⟩], fork := ⟨0, 0, 0⟩ }

/-- Concrete unsigned block used by the closed witnesses. -/
def sampleBlock : BeaconBlock :=
  { slot := 3, parent_root := 1, state_root := 2, body := ⟨Signature.empty⟩,
    signature := Signature.empty }

/-- Concrete chain-constant bundle used by the closed witnesses. -/
def sampleSpec : ChainSpec := ⟨0⟩

/-- Concrete indexed attestation whose custody-bit-1 index list is empty,
as every phase-0 attestation produces. -/
def sampleIndexedAttestation : IndexedAttestation :=
  { custody_bit_0_indices := [0], custody_bit_1_indices := [], data := sampleData,
    signature := Signature.empty }

/-- Validator-client environment in which every external call succeeds but
the spec-constants title is unknown. -/
def envUnknownSpec : VcEnv :=
  { datadirGiven := true, homeDirFound := true, createDataDirOk := true,
    readClientConfigOk := true, clientConfigOnDisk := true, writeClientConfigOk := true,
    applyCliArgsClientOk := true, readEth2ConfigOk := true, eth2ConfigOnDisk := true,
    writeEth2ConfigOk := true, applyCliArgsEth2Ok := true, specConstantsTitle := "foo",
    serviceOk := true }

/-- Overwrite hits the entry of the targeted validator. -/
theorem overwriteVote_pos (v : ValidatorIndex) (r : Hash256) (ep : Epoch)
    (m : Hash256 × Epoch) : overwriteVote v r ep (v, m) = (v, (r, ep)) := by
  simp [overwriteVote]

/-- Overwrite leaves the entry of any other validator alone. -/
theorem overwriteVote_neg (v : ValidatorIndex) (r : Hash256) (ep : Epoch)
    (k : ValidatorIndex) (m : Hash256 × Epoch) (hk : k ≠ v) :
    overwriteVote v r ep (k, m) = (k, m) := by
  simp only [overwriteVote]
  rw [if_neg hk]

/-- Overwriting the vote of a validator that already has one recorded
changes exactly its entry. -/
theorem assocLookup_overwrite_self (l : List (ValidatorIndex × (Hash256 × Epoch)))
    (v : ValidatorIndex) (r : Hash256) (ep : Epoch) (m0 : Hash256 × Epoch)
    (h : assocLookup v l = some m0) :
    assocLookup v (l.map (overwriteVote v r ep)) = some (r, ep) := by
  induction l with
  | nil => simp [assocLookup] at h
  | cons hd tl ih =>
    obtain ⟨k, m⟩ := hd
    by_cases hk : k = v
    · subst hk
      rw [List.map_cons, overwriteVote_pos]
      simp [assocLookup]
    · rw [List.map_cons, overwriteVote_neg v r ep k m hk]
      simp only [assocLookup, if_neg hk] at h ⊢
      exact ih h

/-- Overwriting the vote of one validator leaves every other validator's
vote unchanged. -/
theorem assocLookup_overwrite_other (l : List (ValidatorIndex × (Hash256 × Epoch)))
    (v w : ValidatorIndex) (r : Hash256) (ep : Epoch) (hw : w ≠ v) :
    assocLookup w (l.map (overwriteVote v r ep)) = assocLookup w l := by
  induction l with
  | nil => rfl
  | cons hd tl ih =>
    obtain ⟨k, m⟩ := hd
    by_cases hk : k = v
    · subst hk
      rw [List.map_cons, overwriteVote_pos]
      have hvw : ¬ (k = w) := fun hc => hw hc.symm
      simp only [assocLookup, if_neg hvw]
      exact ih
    · rw [List.map_cons, overwriteVote_neg v r ep k m hk]
      by_cases hkw : k = w
      · simp only [assocLookup, if_pos hkw]
      · simp only [assocLookup, if_neg hkw]
        exact ih

/-- C1: for every attestation whose beacon_block_root matches no state
known to the coordinator, `process_attestation` returns the
`NoStateForAttestation` error carrying that root, and the fork-choice
store, the operation pool and the persisted states are all unchanged. -/
theorem process_attestation_unknown_block_no_mutation (c : BeaconChainModel)
    (att : Attestation)
    (h : assocLookup att.data.beaconBlockRoot c.knownStates = none) :
    (c.processAttestation att).1 =
      .error (.noStateForAttestation att.data.beaconBlockRoot) ∧
    (c.processAttestation att).2.forkChoice = c.forkChoice ∧
    (c.processAttestation att).2.opPool = c.opPool ∧
    (c.processAttestation att).2.persistedStates = c.persistedStates := by
  simp [BeaconChainModel.processAttestation, h]

/-- Closed witness for C1: the empty coordinator rejects the sample
attestation with `NoStateForAttestation 42` and is left untouched. -/
theorem process_attestation_unknown_block_no_mutation_witness :
    (emptyChain.processAttestation sampleAttestation).1 =
      .error (.noStateForAttestation 42) ∧
    (emptyChain.processAttestation sampleAttestation).2.forkChoice = emptyChain.forkChoice ∧
    (emptyChain.processAttestation sampleAttestation).2.opPool = emptyChain.opPool ∧
    (emptyChain.processAttestation sampleAttestation).2.persistedStates =
      emptyChain.persistedStates :=
  process_attestation_unknown_block_no_mutation emptyChain sampleAttestation rfl

/-- C2: fork-choice `process_attestation` updates a validator's latest
message iff the target epoch strictly exceeds the stored one: a call with
target epoch at most the stored epoch leaves the store unchanged, and a
strictly newer epoch overwrites exactly that validator's single vote. -/
theorem fork_choice_latest_message_strict_monotone (s : ForkChoiceStore)
    (v : ValidatorIndex) (r r0 : Hash256) (ep e0 : Epoch)
    (h : assocLookup v s.latestMessages = some (r0, e0)) :
    (ep ≤ e0 → s.processAttestation v r ep = s) ∧
    (e0 < ep →
      assocLookup v (s.processAttestation v r ep).latestMessages = some (r, ep) ∧
      ∀ w, w ≠ v →
        assocLookup w (s.processAttestation v r ep).latestMessages =
          assocLookup w s.latestMessages) := by
  constructor
  · intro hle
    simp [ForkChoiceStore.processAttestation, h, Nat.not_lt.mpr hle]
  · intro hlt
    have hs : s.processAttestation v r ep =
        { s with latestMessages := s.latestMessages.map (overwriteVote v r ep) } := by
      simp [ForkChoiceStore.processAttestation, h, hlt]
    rw [hs]
    exact ⟨assocLookup_overwrite_self s.latestMessages v r ep (r0, e0) h,
      fun w hwv => assocLookup_overwrite_other s.latestMessages v w r ep hwv⟩

/-- Closed witness for C2: a stale vote (epoch 3, not above the stored 3)
leaves the concrete store unchanged, and a newer vote (epoch 4) overwrites
the stored message. -/
theorem fork_choice_latest_message_strict_monotone_witness :
    (ForkChoiceStore.mk [(0, (5, 3))]).processAttestation 0 9 3 =
      ForkChoiceStore.mk [(0, (5, 3))] ∧
    assocLookup 0 ((ForkChoiceStore.mk [(0, (5, 3))]).processAttestation 0 9 4).latestMessages =
      some (9, 4) :=
  ⟨(fork_choice_latest_message_strict_monotone ⟨[(0, (5, 3))]⟩ 0 9 5 3 3 rfl).1 (by decide),
   ((fork_choice_latest_message_strict_monotone ⟨[(0, (5, 3))]⟩ 0 9 5 4 3 rfl).2 (by decide)).1⟩

/-- Proposer index returned by the modelled lookup is an index into the
validator registry. -/
theorem proposer_index_in_registry (st : BeaconState) (slot : Slot) (spec : ChainSpec)
    (i : Nat) (h : st.get_beacon_proposer_index slot spec = .ok i) :
    i < st.validators.length := by
  unfold BeaconState.get_beacon_proposer_index at h
  split at h
  · simp at h
  · next hne =>
      simp only [Except.ok.injEq] at h
      subst h
      exact Nat.mod_lt _ (Nat.pos_of_ne_zero hne)

/-- C3: the four signature-set constructors never panic: on every input the
result is a returned value (Ok or a typed error), and in particular the
registry indexing performed on the proposer index stays in bounds in the
modelled runtime, while the other registry accesses are checked. -/
theorem signature_set_constructors_never_panic (slotsPerEpoch : Nat)
    (st : BeaconState) (blk : BeaconBlock) (ps : ProposerSlashing)
    (exit : VoluntaryExit) (spec : ChainSpec) :
    block_proposal_signature_set slotsPerEpoch st blk spec ≠ none ∧
    randao_signature_set slotsPerEpoch st blk spec ≠ none ∧
    proposer_slashing_signature_set slotsPerEpoch st ps spec ≠ none ∧
    exit_signature_set st exit spec ≠ none := by
  refine ⟨?_, ?_, ?_, ?_⟩
  · unfold block_proposal_signature_set
    cases hp : st.get_beacon_proposer_index blk.slot spec with
    | error e => simp
    | ok i =>
      cases hg : st.validators[i]? with
      | none =>
        have hlt := proposer_index_in_registry st blk.slot spec i hp
        have hge := List.getElem?_eq_none_iff.mp hg
        omega
      | some val => simp [hg]
  · unfold randao_signature_set
    cases hp : st.get_beacon_proposer_index blk.slot spec with
    | error e => simp
    | ok i =>
      cases hg : st.validators[i]? with
      | none =>
        have hlt := proposer_index_in_registry st blk.slot spec i hp
        have hge := List.getElem?_eq_none_iff.mp hg
        omega
      | some val => simp [hg]
  · unfold proposer_slashing_signature_set
    cases hg : st.validators[ps.proposer_index]? with
    | none => simp
    | some proposer => simp [block_header_signature_set]
  · unfold exit_signature_set
    cases hg : st.validators[exit.validator_index]? with
    | none => simp
    | some validator => simp

/-- C4: evidence at the failing input — with an empty custody_bit_1_indices
list, which every phase-0 attestation produces, `indexed_attestation_pubkeys`
accepts the input and returns the empty (identity) aggregate public key in
the custody-bit-1 slot instead of rejecting the input as an invalid
signature set. -/
theorem empty_custody_bit_indices_accepted :
    indexed_attestation_pubkeys sampleState sampleIndexedAttestation =
      .ok (⟨[pubkeyOf 7]⟩, AggregatePublicKey.new) := rfl

/-- C5: counterexample — GET /node/syncing, an endpoint the spec lists, is
not routed to a handler: the router maps it to the fallback error branch. -/
theorem node_syncing_unrouted :
    route_request .GET "/node/syncing" = .fallback (.methodNotAllowed "/node/syncing") := rfl

/-- C5 (amended): the REST server routes GET /beacon/state,
GET /beacon/state_root, GET /metrics, GET /node/version and
GET /node/genesis_time to handlers; GET /node/syncing, GET /validator/duties
and GET and POST /validator/block and /validator/attestation are unmatched
and fall to the fallback MethodNotAllowed branch. -/
theorem rest_routing_surface :
    route_request .GET "/beacon/state" = .beaconState ∧
    route_request .GET "/beacon/state_root" = .beaconStateRoot ∧
    route_request .GET "/metrics" = .metricsRoute ∧
    route_request .GET "/node/version" = .nodeVersion ∧
    route_request .GET "/node/genesis_time" = .nodeGenesisTime ∧
    route_request .GET "/node/syncing" = .fallback (.methodNotAllowed "/node/syncing") ∧
    route_request .GET "/validator/duties" = .fallback (.methodNotAllowed "/validator/duties") ∧
    route_request .GET "/validator/block" = .fallback (.methodNotAllowed "/validator/block") ∧
    route_request .POST "/validator/block" = .fallback (.methodNotAllowed "/validator/block") ∧
    route_request .GET "/validator/attestation" =
      .fallback (.methodNotAllowed "/validator/attestation") ∧
    route_request .POST "/validator/attestation" =
      .fallback (.methodNotAllowed "/validator/attestation") :=
  ⟨rfl, rfl, rfl, rfl, rfl, rfl, rfl, rfl, rfl, rfl, rfl⟩

/-- C6: ProduceAttestationData fails with OutOfRange when the requested
slot is ahead of the current (state) slot, with InvalidArgument when it is
behind, with Unknown when attestation-data production in the coordinator
errors, and otherwise succeeds with the SSZ-encoded attestation data. -/
theorem produce_attestation_data_statuses (slot_requested state_slot : Nat)
    (chain_result : Except BeaconChainError AttestationData) :
    (state_slot < slot_requested →
      produce_attestation_data slot_requested state_slot chain_result =
        .fail .outOfRange "AttestationData request for a slot that is in the future.") ∧
    (slot_requested < state_slot →
      produce_attestation_data slot_requested state_slot chain_result =
        .fail .invalidArgument "AttestationData request for a slot that is in the past.") ∧
    (slot_requested = state_slot →
      (∀ e, chain_result = .error e →
        produce_attestation_data slot_requested state_slot chain_result =
          .fail .unknown "Could not produce an attestation.") ∧
      (∀ d, chain_result = .ok d →
        produce_attestation_data slot_requested state_slot chain_result =
          .success (attestationDataSsz d))) := by
  refine ⟨?_, ?_, ?_⟩
  · intro h
    simp [produce_attestation_data, h]
  · intro h
    have h2 : ¬ (slot_requested > state_slot) := by omega
    simp [produce_attestation_data, h, h2]
  · intro h
    have h1 : ¬ (slot_requested > state_slot) := by omega
    have h2 : ¬ (slot_requested < state_slot) := by omega
    constructor
    · intro e he
      simp [produce_attestation_data, h1, h2, he]
    · intro d hd
      simp [produce_attestation_data, h1, h2, hd]

/-- Closed witness for C6: a request three slots behind the state fails
InvalidArgument, and one at the state slot with a coordinator error fails
Unknown. -/
theorem produce_attestation_data_statuses_witness :
    produce_attestation_data 2 5 (.ok sampleData) =
      .fail .invalidArgument "AttestationData request for a slot that is in the past." ∧
    produce_attestation_data 5 5 (.error .unableToReadSlot) =
      .fail .unknown "Could not produce an attestation." :=
  ⟨(produce_attestation_data_statuses 2 5 (.ok sampleData)).2.1 (by decide),
   ((produce_attestation_data_statuses 5 5 (.error .unableToReadSlot)).2.2 rfl).1
     .unableToReadSlot rfl⟩

/-- C7: counterexample — with every external call succeeding but an unknown
spec-constants title (a spec-mismatch error), the validator client
terminates without starting the service and the process exit code is 0,
not nonzero. -/
theorem validator_client_unknown_spec_exits_zero :
    envUnknownSpec.specConstantsTitle ∉ ["mainnet", "minimal", "interop"] ∧
    validator_client_main envUnknownSpec = { exitCode := 0, startedService := false } :=
  ⟨by decide, rfl⟩

/-- C7 (amended): the validator-client `main` returns normally on every
path, so the process exit code is 0 even on configuration or spec-mismatch
errors; and on any of the listed configuration or spec-mismatch errors —
data-directory lookup or creation, client-config load or write, client CLI
arguments, Eth2Config read or write, Eth2Config CLI arguments, or an
unknown spec-constants title — it terminates without starting the
validator service, after a critical log, rather than exit nonzero. -/
theorem validator_client_exit_code_always_zero (env : VcEnv) :
    (validator_client_main env).exitCode = 0 ∧
    (env.hasConfigError = true → (validator_client_main env).startedService = false) := by
  constructor
  · unfold validator_client_main
    repeat' split
    all_goals rfl
  · intro h
    unfold validator_client_main
    repeat' split
    all_goals first
      | rfl
      | simp_all [VcEnv.hasConfigError]

/-- Closed witness for C7 (amended): a failing data-directory creation and
an unknown spec-constants title each end with exit code 0 and no service
started. -/
theorem validator_client_exit_code_always_zero_witness :
    (validator_client_main envUnknownSpec).exitCode = 0 ∧
    (validator_client_main envUnknownSpec).startedService = false ∧
    (validator_client_main envBadDataDir).exitCode = 0 ∧
    (validator_client_main envBadDataDir).startedService = false :=
  ⟨(validator_client_exit_code_always_zero envUnknownSpec).1,
   (validator_client_exit_code_always_zero envUnknownSpec).2 (by decide),
   (validator_client_exit_code_always_zero envBadDataDir).1,
   (validator_client_exit_code_always_zero envBadDataDir).2 (by decide)⟩

/-- C8: when the proposer lookup succeeds, `block_proposal_signature_set`
returns the set whose single message is the block's signed root, whose
single public key is the proposer's, and whose domain is the BeaconProposer
domain of the block's epoch; the harness signs exactly this message under
exactly this domain with the proposer's key, so a harness-signed block
yields a valid set in the idealized BLS model. -/
theorem block_proposal_set_matches_harness (slotsPerEpoch : Nat)
    (st : BeaconState) (blk : BeaconBlock) (spec : ChainSpec) (i : Nat)
    (proposer : Validator) (sk : Nat)
    (hp : st.get_beacon_proposer_index blk.slot spec = .ok i)
    (hv : st.validators[i]? = some proposer)
    (hk : proposer.pubkey = pubkeyOf sk) :
    block_proposal_signature_set slotsPerEpoch st
        (harness_sign_block slotsPerEpoch spec st.fork sk blk) spec =
      some (.ok
        { signature := (Signature.produced blk.signed_root
            (spec.get_domain (slotEpoch blk.slot slotsPerEpoch) .beaconProposer st.fork) sk)
          pubkeys := [proposer.pubkey]
          messages := [blk.signed_root]
          domain := spec.get_domain (slotEpoch blk.slot slotsPerEpoch) .beaconProposer st.fork }) ∧
    SignatureSet.is_valid
      { signature := (Signature.produced blk.signed_root
          (spec.get_domain (slotEpoch blk.slot slotsPerEpoch) .beaconProposer st.fork) sk)
        pubkeys := [proposer.pubkey]
        messages := [blk.signed_root]
        domain := spec.get_domain (slotEpoch blk.slot slotsPerEpoch) .beaconProposer st.fork } =
      true := by
  have hslot : (harness_sign_block slotsPerEpoch spec st.fork sk blk).slot = blk.slot := rfl
  have hroot : (harness_sign_block slotsPerEpoch spec st.fork sk blk).signed_root =
      blk.signed_root := rfl
  constructor
  · unfold block_proposal_signature_set
    rw [hslot, hp]
    simp [hv, harness_sign_block, BeaconBlock.signed_root, Signature.encode]
  · simp [SignatureSet.is_valid, hk, pubkeyOf]

/-- Closed witness for C8 at the one-validator sample state and block. -/
theorem block_proposal_set_matches_harness_witness :
    block_proposal_signature_set 8 sampleState
        (harness_sign_block 8 sampleSpec sampleState.fork 7 sampleBlock) sampleSpec =
      some (.ok
        { signature := (Signature.produced sampleBlock.signed_root
            (sampleSpec.get_domain (slotEpoch sampleBlock.slot 8) .beaconProposer
              sampleState.fork) 7)
          pubkeys := [pubkeyOf 7]
          messages := [sampleBlock.signed_root]
          domain := sampleSpec.get_domain (slotEpoch sampleBlock.slot 8) .beaconProposer
            sampleState.fork }) :=
  (block_proposal_set_matches_harness 8 sampleState sampleBlock sampleSpec 0
    ⟨pubkeyOf 7⟩ 7 rfl rfl rfl).1

/-- C9: every request whose method-and-path pair is not one of the five
routed pairs hits the fallback branch and is answered with status 405
Method Not Allowed; in particular an unknown path is never answered with
404 Not Found. -/
theorem unmatched_request_gets_405 (m : Method) (p : String)
    (h : (m, p) ∉ routed_pairs) :
    fallback_response_status (route_request m p) = some 405 ∧ (405 : Nat) ≠ 404 := by
  refine ⟨?_, by decide⟩
  unfold route_request
  split
  · exact absurd (by simp [routed_pairs]) h
  · exact absurd (by simp [routed_pairs]) h
  · exact absurd (by simp [routed_pairs]) h
  · exact absurd (by simp [routed_pairs]) h
  · exact absurd (by simp [routed_pairs]) h
  · rfl

/-- Closed witness for C9: GET /node/syncing is not a routed pair and is
answered with 405. -/
theorem unmatched_request_gets_405_witness :
    fallback_response_status (route_request .GET "/node/syncing") = some 405 :=
  (unmatched_request_gets_405 .GET "/node/syncing" (by decide)).1

/-- C10: `publish_attestation` hands the attestation to the gossip network
iff `process_attestation` returned Ok; on every error path the response
carries success = false with a message naming the failure kind and nothing
is published. -/
theorem publish_attestation_iff_processed (r : Except BeaconChainError Unit) :
    ((publish_attestation_dispatch r).publishedToGossip = true ↔ r = .ok ()) ∧
    (∀ e, r = .error e →
      (publish_attestation_dispatch r).response.success = false ∧
      (publish_attestation_dispatch r).response.msg =
        some (publish_failure_message e)) := by
  cases r with
  | ok u =>
    cases u
    simp [publish_attestation_dispatch]
  | error e =>
    simp [publish_attestation_dispatch]

/-- Closed witness for C10 at a concrete coordinator error. -/
theorem publish_attestation_iff_processed_witness :
    (publish_attestation_dispatch (.error .unableToReadSlot)).response.success = false ∧
    (publish_attestation_dispatch (.error .unableToReadSlot)).response.msg =
      some (publish_failure_message .unableToReadSlot) :=
  (publish_attestation_iff_processed (.error .unableToReadSlot)).2 .unableToReadSlot rfl

end Lighthouse
